import Mathlib

/-!
# Verification development of the polyproto certificate model

This file is a shallow embedding of the polyproto repository's certificate
data model and its operations, together with theorems settling claims about
the natural-language specification of the code.

The repository snapshot contains two coexisting models:

* a flat model in `src/certificates.rs` (`IdCsr`, `IdCertTBS`, `IdCert`,
  `try_sign`, ...), embedded below in namespace `Certificates`;
* a generic model in `src/certs/` (`IdCsr`/`IdCsrInner` in `idcsr.rs`,
  `IdCert` in `idcert.rs`), parameterised over pluggable signature and key
  types, embedded below in namespace `Certs`.

Several supporting modules of the generic model (`certs/capabilities.rs`,
`certs/idcerttbs.rs`, `certs/mod.rs`, `signature.rs`, the error enums and the
`Constrained` implementations) are not part of the snapshot; every definition
standing in for one of them carries a doc comment starting with
`Modelled from the spec:` and follows the specification's words for it.
The external ASN.1 DER/PEM codec is out of scope for the repository (spec
section 6) and is modelled as a correct encoder/decoder: an encoded structure
is an opaque blob carrying its content, and decode of encode is the identity.
-/

namespace Polyproto

/-! ## The flat model of src/certificates.rs -/

namespace Certificates

/-- Modelled from the spec: the set of pluggable signature algorithms
(`crate::SignatureType`, not in the snapshot). Only distinguishability of
algorithms matters to the code in `certificates.rs`. -/
inductive SignatureType
  | ed25519
  | ecdsaP256
  deriving DecidableEq

/-- Modelled from the spec: `crate::keys::PublicKey` (not in the snapshot) as
used by `certificates.rs`: it exposes `as_bytes()` and `signature_type()`. -/
structure PublicKey where
  signature_type : SignatureType
  bytes : List Nat
  deriving DecidableEq

/-- `PublicKey::as_bytes` as used by `IdCertTBS::to_bytes`. -/
def PublicKey.as_bytes (k : PublicKey) : List Nat := k.bytes

/-- `FederationId` from src/certificates.rs: actor name, domain and TLD. -/
structure FederationId where
  actor_name : String
  domain : String
  tld : String
  deriving DecidableEq

/-- `IdCsr` from src/certificates.rs: a certificate signing request with an
optional requested expiry. -/
structure IdCsr where
  pub_key : PublicKey
  federation_id : FederationId
  session_id : String
  expiry : Option Nat
  deriving DecidableEq

/-- `Signature<T>` from src/certificates.rs: a signature type tag and the
signature string itself. -/
structure Signature where
  signature_type : SignatureType
  signature : String
  deriving DecidableEq

/-- `IdCertTBS` from src/certificates.rs: the unsigned to-be-signed
certificate. -/
structure IdCertTBS where
  pub_key : PublicKey
  federation_id : FederationId
  session_id : String
  expiry : Nat
  serial : String
  deriving DecidableEq

/-- `IdCert` from src/certificates.rs: the signed certificate. -/
structure IdCert where
  pub_key : PublicKey
  federation_id : FederationId
  session_id : String
  expiry : Nat
  serial : String
  signature : Signature
  deriving DecidableEq

/-- Modelled from the spec: `crate::error::Error` with the
`SignatureTypeMismatch` variant carrying the key's and the public key's
signature types (the error enum is not in the snapshot; `try_sign` in
src/certificates.rs constructs exactly this variant). -/
inductive Error
  | signatureTypeMismatch (keyType : SignatureType) (pubKeyType : SignatureType)
  deriving DecidableEq

/-- Modelled from the spec: a signing key of the flat model, the combination
of the `Signer<Signature<SignatureType>>` and `HasSignatureType` bounds used
by `try_sign`: a declared signature type and a signing function. -/
structure PrivateKey where
  signature_type : SignatureType
  signFn : List Nat → Signature

/-- `IdCsr::to_id_cert_tbs` from src/certificates.rs: total, no validation. -/
def IdCsr.to_id_cert_tbs (c : IdCsr) (expiry : Nat) (serial : String) : IdCertTBS :=
  { pub_key := c.pub_key
    federation_id := c.federation_id
    session_id := c.session_id
    expiry := expiry
    serial := serial }

/-- `From<IdCertTBS> for IdCsr` from src/certificates.rs. -/
def IdCsr.fromIdCertTBS (value : IdCertTBS) : IdCsr :=
  { pub_key := value.pub_key
    federation_id := value.federation_id
    session_id := value.session_id
    expiry := some value.expiry }

/-- Big-endian byte representation of a natural number in `w` bytes, the
embedding of Rust's `to_be_bytes` on fixed-width unsigned integers. -/
def natToBeBytes (n w : Nat) : List Nat :=
  (List.range w).map fun i => n / 256 ^ (w - 1 - i) % 256

/-- Byte sequence of a string (Rust `str::as_bytes`), modelled as the code
points of the characters. -/
def strBytes (s : String) : List Nat := s.data.map Char.toNat

/-- `IdCertTBS::to_bytes` from src/certificates.rs: concatenation of the
public key bytes and the length-prefixed fields, with `usize`/`u64` lengths
rendered via `to_be_bytes`. -/
def IdCertTBS.to_bytes (v : IdCertTBS) : List Nat :=
  v.pub_key.as_bytes
    ++ natToBeBytes (strBytes v.federation_id.actor_name).length 8
    ++ strBytes v.federation_id.actor_name
    ++ natToBeBytes (strBytes v.federation_id.domain).length 8
    ++ strBytes v.federation_id.domain
    ++ natToBeBytes (strBytes v.federation_id.tld).length 8
    ++ strBytes v.federation_id.tld
    ++ natToBeBytes (strBytes v.session_id).length 8
    ++ strBytes v.session_id
    ++ natToBeBytes (v.expiry % 2 ^ 64) 8
    ++ natToBeBytes (strBytes v.serial).length 8
    ++ strBytes v.serial

/-- `IdCertTBS::try_sign` from src/certificates.rs: fails with
`SignatureTypeMismatch` when the private key's signature type differs from
the public key's; otherwise signs `to_bytes` and assembles the `IdCert`. -/
def IdCertTBS.try_sign (self : IdCertTBS) (private_key : PrivateKey) :
    Except Error IdCert :=
  if private_key.signature_type ≠ self.pub_key.signature_type then
    .error (.signatureTypeMismatch private_key.signature_type
      self.pub_key.signature_type)
  else
    let signature := private_key.signFn self.to_bytes
    .ok { pub_key := self.pub_key
          federation_id := self.federation_id
          session_id := self.session_id
          expiry := self.expiry
          serial := self.serial
          signature := signature }

end Certificates

/-! ## The generic model of src/certs/ -/

namespace Certs

/-- Modelled from the spec: one typed component of an X.509 `Name`
(`x509_cert::name::Name`, an external type): a common name, a domain
component or an organizational unit. -/
inductive NameComponent
  | commonName (value : String)
  | domainComponent (value : String)
  | organizationalUnit (value : String)
  deriving DecidableEq

/-- An X.509 Name: an ordered sequence of typed components. -/
abbrev Name := List NameComponent

/-- Modelled from the spec: `ConstraintError`, the leaf error of the missing
errors module; the source constructs `ConstraintError::Malformed(Option<String>)`. -/
inductive ConstraintError
  | malformed (msg : Option String)
  deriving DecidableEq

/-- Modelled from the spec: `ConversionError` from the missing errors module:
it wraps a nested `ConstraintError` or a wire decode failure. -/
inductive ConversionError
  | constraintError (e : ConstraintError)
  | invalidAttributes (msg : String)
  | invalidPublicKey (msg : String)
  | derError (msg : String)
  deriving DecidableEq

/-- Modelled from the spec: `IdCertError` from the missing errors module, the
error type of `IdCert`'s operations; `ConstraintError` and `ConversionError`
convert into it. -/
inductive IdCertError
  | constraintError (e : ConstraintError)
  | conversionError (e : ConversionError)
  deriving DecidableEq

/-- Lifting of a constraint-validation result into `IdCertError`, the
embedding of the `From<ConstraintError> for IdCertError` conversion applied
by the `?` operator. -/
def liftConstraint {α : Type} : Except ConstraintError α → Except IdCertError α
  | .error e => .error (.constraintError e)
  | .ok a => .ok a

/-- Lifting of a conversion result into `IdCertError`, the embedding of the
`From<ConversionError> for IdCertError` conversion applied by `?`. -/
def liftConversion {α : Type} : Except ConversionError α → Except IdCertError α
  | .error e => .error (.conversionError e)
  | .ok a => .ok a

/-- The common-name components of a Name, in order. -/
def commonNames (n : Name) : List String :=
  n.filterMap fun c => match c with
    | .commonName v => some v
    | _ => none

/-- The domain components of a Name, in order. -/
def domainComponents (n : Name) : List String :=
  n.filterMap fun c => match c with
    | .domainComponent v => some v
    | _ => none

/-- Modelled from the spec: `Name`'s `Constrained` validation (section 3):
the common name must be present, unique and non-empty, and the domain
components, read in order, must form a fully-qualified domain name, modelled
as at least one non-empty domain component. -/
def Name.validate (n : Name) : Except ConstraintError Unit :=
  match commonNames n with
  | [cn] =>
    if cn.isEmpty then
      .error (.malformed (some "Common name must not be empty"))
    else if (domainComponents n).isEmpty then
      .error (.malformed (some "Name must have at least one domain component"))
    else if (domainComponents n).any String.isEmpty then
      .error (.malformed (some "Domain components must not be empty"))
    else
      .ok ()
  | _ => .error (.malformed (some "Name must have exactly one common name"))

/-- Modelled from the spec: `equal_domain_components` from the missing
`certs/mod.rs`: whether the two Names' domain components, read in order, are
equal. -/
def equal_domain_components (a b : Name) : Bool :=
  domainComponents a = domainComponents b

/-- The basic-constraints extension: the CA flag. -/
structure BasicConstraints where
  ca : Bool
  deriving DecidableEq

/-- Modelled from the spec: `Capabilities` from the missing
`certs/capabilities.rs`: the CA flag (basic constraints) plus additional
protocol capability flags. -/
structure Capabilities where
  basic_constraints : BasicConstraints
  flags : List String
  deriving DecidableEq

/-- Modelled from the spec: `Capabilities`' `Constrained` validation:
Capabilities are well-formed regardless of value (section 3). -/
def Capabilities.validate (_c : Capabilities) : Except ConstraintError Unit :=
  .ok ()

/-- A generic certificate-request attribute: an object identifier and a
value, as in the `x509_cert::attr::Attributes` container. -/
structure Attribute where
  oid : String
  value : String
  deriving DecidableEq

/-- The generic attributes container of the request wire format. -/
abbrev Attributes := List Attribute

/-- Modelled from the spec: the lossless encoding of `Capabilities` into the
generic attributes container (section 4.4): the basic-constraints attribute
followed by one attribute per capability flag. -/
def Capabilities.toAttributes (c : Capabilities) : Attributes :=
  ⟨"basicConstraints", if c.basic_constraints.ca then "CA:TRUE" else "CA:FALSE"⟩
    :: c.flags.map fun f => ⟨"capabilityFlag", f⟩

/-- Modelled from the spec: decoding of the capability-flag attributes; any
unrecognized attribute (including a duplicated basic-constraints attribute)
causes rejection. -/
def parseFlagAttributes : Attributes → Except ConversionError (List String)
  | [] => .ok []
  | a :: rest =>
    if a.oid = "capabilityFlag" then
      match parseFlagAttributes rest with
      | .ok fs => .ok (a.value :: fs)
      | .error e => .error e
    else
      .error (.invalidAttributes "unrecognized or duplicated attribute")

/-- Modelled from the spec: decoding `Capabilities` from the generic
attributes container; fails if the basic-constraints attribute is missing,
malformed or not unique, or an unrecognized attribute is present. -/
def Capabilities.fromAttributes : Attributes → Except ConversionError Capabilities
  | [] => .error (.invalidAttributes "missing basicConstraints attribute")
  | a :: rest =>
    if a.oid = "basicConstraints" then
      if a.value = "CA:TRUE" then
        match parseFlagAttributes rest with
        | .ok fs => .ok ⟨⟨true⟩, fs⟩
        | .error e => .error e
      else if a.value = "CA:FALSE" then
        match parseFlagAttributes rest with
        | .ok fs => .ok ⟨⟨false⟩, fs⟩
        | .error e => .error e
      else
        .error (.invalidAttributes "malformed basicConstraints value")
    else
      .error (.invalidAttributes "missing basicConstraints attribute")

/-- An algorithm identifier (`spki::AlgorithmIdentifierOwned`): an object
identifier; the optional parameters play no role in the embedded code. -/
structure AlgorithmIdentifier where
  oid : String
  deriving DecidableEq

/-- Modelled from the spec: `S::algorithm_identifier()`, the algorithm
identifier of the modelled pluggable signature scheme. -/
def signatureAlgId : AlgorithmIdentifier := ⟨"1.3.101.112"⟩

/-- Modelled from the spec: the pluggable `Signature` type `S` as the source
uses it: a value reconstructible from raw bytes and encodable as a
bit-string. -/
structure Sig where
  bytes : List Nat
  deriving DecidableEq

/-- `S::from_bytes`: signature construction from raw bytes. The source
applies this method with no error propagation (src/certs/idcsr.rs line 194),
so it is total. -/
def Sig.from_bytes (b : List Nat) : Sig := ⟨b⟩

/-- `S::from_bitstring`: signature construction from the raw bytes of a
bit-string, applied with no error propagation (src/certs/idcert.rs line 143),
so it is total. -/
def Sig.from_bitstring (b : List Nat) : Sig := ⟨b⟩

/-- `S::to_bitstring`: encoding the signature as a bit-string. -/
def Sig.to_bitstring (s : Sig) : Except ConversionError (List Nat) :=
  .ok s.bytes

/-- Modelled from the spec: the byte layouts valid for the modelled signature
algorithm (section 4.1 makes construction fail on an invalid layout); the
modelled scheme's signatures occupy exactly 64 bytes. -/
def sigBytesWellFormed (b : List Nat) : Bool :=
  b.length = 64

/-- `certs::PublicKeyInfo`: the generic (algorithm identifier, raw key bits)
pair used for wire embedding. -/
structure PublicKeyInfo where
  algorithm : AlgorithmIdentifier
  public_key_bitstring : List Nat
  deriving DecidableEq

/-- Modelled from the spec: the typed public key `P` of the modelled
signature scheme. -/
structure PubKey where
  key_bits : List Nat
  deriving DecidableEq

/-- `P::public_key_info()`: the generic pair for wire embedding. -/
def PubKey.public_key_info (p : PubKey) : PublicKeyInfo :=
  ⟨signatureAlgId, p.key_bits⟩

/-- Modelled from the spec: `P::try_from_public_key_info`, the fallible
public-key reconstruction invoked by the decode path
(src/certs/idcsr.rs line 213); it rejects malformed or mismatched-algorithm
input, modelled as any pair whose algorithm identifier differs from the
scheme's. -/
def PubKey.try_from_public_key_info (info : PublicKeyInfo) :
    Except ConversionError PubKey :=
  if info.algorithm = signatureAlgId then
    .ok ⟨info.public_key_bitstring⟩
  else
    .error (.invalidPublicKey "algorithm identifier mismatch")

/-- `PKCS#10` version tag (`PkcsVersion`): fixed to version 1. -/
inductive PkcsVersion
  | v1
  deriving DecidableEq

/-- `x509_cert::request::CertReqInfo`: the generic certification-request
information structure. -/
structure CertReqInfo where
  version : PkcsVersion
  subject : Name
  public_key : PublicKeyInfo
  attributes : Attributes
  deriving DecidableEq

/-- `x509_cert::request::CertReq`: the generic certification request. -/
structure CertReq where
  info : CertReqInfo
  algorithm : AlgorithmIdentifier
  signature : List Nat
  deriving DecidableEq

/-- `x509_cert::time::Validity`: the not-before/not-after window. -/
structure Validity where
  not_before : Nat
  not_after : Nat
  deriving DecidableEq

/-- The generic `TbsCertificate` wire structure, restricted to the fields the
conversion layer uses: serial number, inner signature-algorithm identifier,
issuer, validity, subject, subject public-key info and the capability
extension attributes. -/
structure TbsCertificate where
  serial_number : Nat
  signature : AlgorithmIdentifier
  issuer : Name
  validity : Validity
  subject : Name
  subject_public_key_info : PublicKeyInfo
  capability_attributes : Attributes
  deriving DecidableEq

/-- `x509_cert::Certificate`: the generic signed certificate. -/
structure Certificate where
  tbs_certificate : TbsCertificate
  signature_algorithm : AlgorithmIdentifier
  signature : List Nat
  deriving DecidableEq

/-- Modelled from the spec: opaque DER byte strings (section 6). The
delegated codec is a correct external encoder/decoder, so an encoded
structure is modelled as an opaque blob carrying its content; raw
(non-DER-of-a-known-structure) bytes are a separate constructor. -/
inductive Bytes
  | raw (data : List Nat)
  | derCertReqInfo (c : CertReqInfo)
  | derCertReq (c : CertReq)
  | derTbsCertificate (t : TbsCertificate)
  | derCertificate (c : Certificate)
  deriving DecidableEq

/-- Modelled from the spec: `CertReq::to_der` of the delegated codec. -/
def CertReq.to_der (c : CertReq) : Bytes := .derCertReq c

/-- Modelled from the spec: `CertReq::from_der` of the delegated codec:
decode of encode is the identity, anything else is a decode error. -/
def CertReq.from_der : Bytes → Except ConversionError CertReq
  | .derCertReq c => .ok c
  | _ => .error (.derError "malformed DER input")

/-- Modelled from the spec: `CertReqInfo::to_der` of the delegated codec. -/
def CertReqInfo.to_der (c : CertReqInfo) : Bytes := .derCertReqInfo c

/-- Modelled from the spec: `CertReqInfo::from_der` of the delegated codec. -/
def CertReqInfo.from_der : Bytes → Except ConversionError CertReqInfo
  | .derCertReqInfo c => .ok c
  | _ => .error (.derError "malformed DER input")

/-- Modelled from the spec: `TbsCertificate::to_der` of the delegated codec. -/
def TbsCertificate.to_der (t : TbsCertificate) : Bytes := .derTbsCertificate t

/-- Modelled from the spec: `Certificate::to_der` of the delegated codec. -/
def Certificate.to_der (c : Certificate) : Bytes := .derCertificate c

/-- Modelled from the spec: `Certificate::from_der` of the delegated codec. -/
def Certificate.from_der : Bytes → Except ConversionError Certificate
  | .derCertificate c => .ok c
  | _ => .error (.derError "malformed DER input")

/-- `der::pem::LineEnding`, the line-ending choice of the PEM encoder. -/
inductive LineEnding
  | lf
  | crlf
  deriving DecidableEq

/-- Modelled from the spec: PEM text, the base64-with-header/footer wrapping
of the DER form of a certification request (section 6); the wrapping is
lossless, so the text is modelled as a blob carrying its content. -/
structure PemText where
  content : CertReq
  deriving DecidableEq

/-- Modelled from the spec: `CertReq::to_pem` of the delegated codec. -/
def CertReq.to_pem (c : CertReq) (_le : LineEnding) : PemText := ⟨c⟩

/-- Modelled from the spec: `CertReq::from_pem` of the delegated codec. -/
def CertReq.from_pem (p : PemText) : Except ConversionError CertReq :=
  .ok p.content

/-- Modelled from the spec: a private key for the modelled scheme
(`PrivateKey<S>`): its public key and its signing function; its
`algorithm_identifier()` is `S::algorithm_identifier()` (the trait's default
body in src/key.rs). -/
structure PrivKey where
  pub_key : PubKey
  signFn : Bytes → Sig

/-- `IdCsrInner` from src/certs/idcsr.rs (the phantom-data marker has no
runtime representation and is dropped, per the spec's design note). -/
structure IdCsrInner where
  version : PkcsVersion
  subject : Name
  subject_public_key : PubKey
  capabilities : Capabilities
  deriving DecidableEq

/-- `IdCsr` from src/certs/idcsr.rs. -/
structure IdCsr where
  inner_csr : IdCsrInner
  signature_algorithm : AlgorithmIdentifier
  signature : Sig
  deriving DecidableEq

/-- `TryFrom<IdCsrInner> for CertReqInfo` from src/certs/idcsr.rs. -/
def IdCsrInner.toCertReqInfo (value : IdCsrInner) :
    Except ConversionError CertReqInfo :=
  .ok { version := .v1
        subject := value.subject
        public_key := value.subject_public_key.public_key_info
        attributes := value.capabilities.toAttributes }

/-- `TryFrom<CertReqInfo> for IdCsrInner` from src/certs/idcsr.rs: validates
the subject Name, reconstructs the typed public key from the generic pair and
the Capabilities from the attributes. -/
def IdCsrInner.fromCertReqInfo (value : CertReqInfo) :
    Except ConversionError IdCsrInner :=
  match Name.validate value.subject with
  | .error e => .error (.constraintError e)
  | .ok () =>
    let public_key_info : PublicKeyInfo :=
      { algorithm := value.public_key.algorithm
        public_key_bitstring := value.public_key.public_key_bitstring }
    match PubKey.try_from_public_key_info public_key_info with
    | .error e => .error e
    | .ok pk =>
      match Capabilities.fromAttributes value.attributes with
      | .error e => .error e
      | .ok caps =>
        .ok { version := .v1
              subject := value.subject
              subject_public_key := pk
              capabilities := caps }

/-- `TryFrom<IdCsr> for CertReq` from src/certs/idcsr.rs. -/
def IdCsr.toCertReq (value : IdCsr) : Except ConversionError CertReq :=
  match value.inner_csr.toCertReqInfo with
  | .error e => .error e
  | .ok info =>
    match value.signature.to_bitstring with
    | .error e => .error e
    | .ok sigBits =>
      .ok { info := info
            algorithm := value.signature_algorithm
            signature := sigBits }

/-- `TryFrom<CertReq> for IdCsr` from src/certs/idcsr.rs: the signature is
reconstructed by `S::from_bytes` on the raw bit-string bytes. -/
def IdCsr.fromCertReq (value : CertReq) : Except ConversionError IdCsr :=
  match IdCsrInner.fromCertReqInfo value.info with
  | .error e => .error e
  | .ok inner =>
    .ok { inner_csr := inner
          signature_algorithm := value.algorithm
          signature := Sig.from_bytes value.signature }

/-- `IdCsrInner::new` from src/certs/idcsr.rs: validates subject and
capabilities, then builds the inner request. -/
def IdCsrInner.new (subject : Name) (public_key : PubKey)
    (capabilities : Capabilities) : Except ConversionError IdCsrInner :=
  match Name.validate subject with
  | .error e => .error (.constraintError e)
  | .ok () =>
    match capabilities.validate with
    | .error e => .error (.constraintError e)
    | .ok () =>
      .ok { version := .v1
            subject := subject
            subject_public_key := public_key
            capabilities := capabilities }

/-- `IdCsrInner::to_der` from src/certs/idcsr.rs. -/
def IdCsrInner.to_der (value : IdCsrInner) : Except ConversionError Bytes :=
  match value.toCertReqInfo with
  | .error e => .error e
  | .ok cri => .ok cri.to_der

/-- `IdCsrInner::from_der` from src/certs/idcsr.rs. -/
def IdCsrInner.from_der (b : Bytes) : Except ConversionError IdCsrInner :=
  match CertReqInfo.from_der b with
  | .error e => .error e
  | .ok cri => IdCsrInner.fromCertReqInfo cri

/-- `IdCsr::new` from src/certs/idcsr.rs: validates the subject, builds the
inner request, signs its DER encoding with the subject's private key and
records the algorithm identifier of the signature type. -/
def IdCsr.new (subject : Name) (signing_key : PrivKey)
    (capabilities : Capabilities) : Except ConversionError IdCsr :=
  match Name.validate subject with
  | .error e => .error (.constraintError e)
  | .ok () =>
    match IdCsrInner.new subject signing_key.pub_key capabilities with
    | .error e => .error e
    | .ok inner_csr =>
      match inner_csr.to_der with
      | .error e => .error e
      | .ok der =>
        .ok { inner_csr := inner_csr
              signature_algorithm := signatureAlgId
              signature := signing_key.signFn der }

/-- Modelled from the spec: the `Constrained` validation of an `IdCsr`
(section 4.3): a composite validates itself by validating its parts — the
subject Name and the Capabilities. -/
def IdCsr.validate (v : IdCsr) : Except ConstraintError Unit :=
  match Name.validate v.inner_csr.subject with
  | .error e => .error e
  | .ok () => v.inner_csr.capabilities.validate

/-- `IdCsr::validate_actor` from src/certs/idcsr.rs: generic validation, then
the CA flag must be false. -/
def IdCsr.validate_actor (v : IdCsr) : Except ConversionError Unit :=
  match v.validate with
  | .error e => .error (.constraintError e)
  | .ok () =>
    if v.inner_csr.capabilities.basic_constraints.ca then
      .error (.constraintError (.malformed (some "Actor CSR must not be a CA")))
    else
      .ok ()

/-- `IdCsr::validate_home_server` from src/certs/idcsr.rs: generic
validation, then the CA flag must be true. -/
def IdCsr.validate_home_server (v : IdCsr) : Except ConversionError Unit :=
  match v.validate with
  | .error e => .error (.constraintError e)
  | .ok () =>
    if !v.inner_csr.capabilities.basic_constraints.ca then
      .error (.constraintError (.malformed
        (some "Home server CSR must have the CA capability set to true")))
    else
      .ok ()

/-- `IdCsr::from_der` from src/certs/idcsr.rs. -/
def IdCsr.from_der (b : Bytes) : Except ConversionError IdCsr :=
  match CertReq.from_der b with
  | .error e => .error e
  | .ok c => IdCsr.fromCertReq c

/-- `IdCsr::to_der` from src/certs/idcsr.rs. -/
def IdCsr.to_der (value : IdCsr) : Except ConversionError Bytes :=
  match value.toCertReq with
  | .error e => .error e
  | .ok c => .ok c.to_der

/-- `IdCsr::from_pem` from src/certs/idcsr.rs. -/
def IdCsr.from_pem (p : PemText) : Except ConversionError IdCsr :=
  match CertReq.from_pem p with
  | .error e => .error e
  | .ok c => IdCsr.fromCertReq c

/-- `IdCsr::to_pem` from src/certs/idcsr.rs. -/
def IdCsr.to_pem (value : IdCsr) (le : LineEnding) :
    Except ConversionError PemText :=
  match value.toCertReq with
  | .error e => .error e
  | .ok c => .ok (c.to_pem le)

/-- Modelled from the spec: `IdCertTbs` from the missing
`certs/idcerttbs.rs` (section 3): the subject public key, Name and
Capabilities copied from the originating request, plus the authority-supplied
serial number, signature-algorithm identifier, issuer Name and validity
window. -/
structure IdCertTbs where
  serial_number : Nat
  signature_algorithm : AlgorithmIdentifier
  issuer : Name
  validity : Validity
  subject : Name
  subject_public_key : PubKey
  capabilities : Capabilities
  deriving DecidableEq

/-- Modelled from the spec: `IdCertTbs::from_ca_csr` (section 4.6): the CA
variant requires the originating request to pass `validate_home_server`
(CA = true), then copies the request's validated public key, subject and
Capabilities and combines them with serial, algorithm, issuer and validity. -/
def IdCertTbs.from_ca_csr (id_csr : IdCsr) (serial_number : Nat)
    (signature_algorithm : AlgorithmIdentifier) (issuer : Name)
    (validity : Validity) : Except ConversionError IdCertTbs :=
  match id_csr.validate_home_server with
  | .error e => .error e
  | .ok () =>
    .ok { serial_number := serial_number
          signature_algorithm := signature_algorithm
          issuer := issuer
          validity := validity
          subject := id_csr.inner_csr.subject
          subject_public_key := id_csr.inner_csr.subject_public_key
          capabilities := id_csr.inner_csr.capabilities }

/-- Modelled from the spec: `IdCertTbs::from_actor_csr` (section 4.6): the
actor variant requires the originating request to pass `validate_actor`
(CA = false), then builds the TBS certificate the same way. -/
def IdCertTbs.from_actor_csr (id_csr : IdCsr) (serial_number : Nat)
    (signature_algorithm : AlgorithmIdentifier) (issuer : Name)
    (validity : Validity) : Except ConversionError IdCertTbs :=
  match id_csr.validate_actor with
  | .error e => .error e
  | .ok () =>
    .ok { serial_number := serial_number
          signature_algorithm := signature_algorithm
          issuer := issuer
          validity := validity
          subject := id_csr.inner_csr.subject
          subject_public_key := id_csr.inner_csr.subject_public_key
          capabilities := id_csr.inner_csr.capabilities }

/-- Modelled from the spec: conversion of an `IdCertTbs` to the generic
`TbsCertificate`: the public key is embedded via `public_key_info` and the
Capabilities via the attribute encoding. -/
def IdCertTbs.toTbsCertificate (v : IdCertTbs) :
    Except ConversionError TbsCertificate :=
  .ok { serial_number := v.serial_number
        signature := v.signature_algorithm
        issuer := v.issuer
        validity := v.validity
        subject := v.subject
        subject_public_key_info := v.subject_public_key.public_key_info
        capability_attributes := v.capabilities.toAttributes }

/-- Modelled from the spec: parse-only reconstruction of an `IdCertTbs` from
the generic `TbsCertificate` (section 4.6: decoding reconstructs the embedded
public key and Capabilities exactly as in section 4.5, failing on malformed
components, and does not validate beyond what parsing requires). -/
def IdCertTbs.fromTbsCertificate (t : TbsCertificate) :
    Except ConversionError IdCertTbs :=
  match PubKey.try_from_public_key_info t.subject_public_key_info with
  | .error e => .error e
  | .ok pk =>
    match Capabilities.fromAttributes t.capability_attributes with
    | .error e => .error e
    | .ok caps =>
      .ok { serial_number := t.serial_number
            signature_algorithm := t.signature
            issuer := t.issuer
            validity := t.validity
            subject := t.subject
            subject_public_key := pk
            capabilities := caps }

/-- Modelled from the spec: `IdCertTbs::to_der` through the generic
`TbsCertificate` encoding. -/
def IdCertTbs.to_der (v : IdCertTbs) : Except ConversionError Bytes :=
  match v.toTbsCertificate with
  | .error e => .error e
  | .ok t => .ok t.to_der

/-- `IdCert` from src/certs/idcert.rs: the TBS certificate and the signature
over its DER encoding. -/
structure IdCert where
  id_cert_tbs : IdCertTbs
  signature : Sig
  deriving DecidableEq

/-- Modelled from the spec: the `Constrained` validation of an `IdCert`
(sections 3 and 4.3): the subject and issuer Names must validate and the
issuer's and subject's domain components must be equal. -/
def IdCert.validate (v : IdCert) : Except ConstraintError Unit :=
  match Name.validate v.id_cert_tbs.subject with
  | .error e => .error e
  | .ok () =>
    match Name.validate v.id_cert_tbs.issuer with
    | .error e => .error e
    | .ok () =>
      if equal_domain_components v.id_cert_tbs.subject v.id_cert_tbs.issuer then
        .ok ()
      else
        .error (.malformed
          (some "Domain components of the issuer and the subject do not match"))

/-- `IdCert::from_ca_csr` from src/certs/idcert.rs: validates the issuer,
rejects mismatched issuer/subject domain components, builds the TBS
certificate, signs its DER encoding, assembles the certificate and
re-validates it before returning. -/
def IdCert.from_ca_csr (id_csr : IdCsr) (signing_key : PrivKey)
    (serial_number : Nat) (issuer : Name) (validity : Validity) :
    Except IdCertError IdCert :=
  let signature_algorithm := signatureAlgId
  match Name.validate issuer with
  | .error e => .error (.constraintError e)
  | .ok () =>
    if !equal_domain_components id_csr.inner_csr.subject issuer then
      .error (.constraintError (.malformed
        (some "Domain components of the issuer and the subject do not match")))
    else
      match IdCertTbs.from_ca_csr id_csr serial_number signature_algorithm
          issuer validity with
      | .error e => .error (.conversionError e)
      | .ok id_cert_tbs =>
        match id_cert_tbs.to_der with
        | .error e => .error (.conversionError e)
        | .ok der =>
          let signature := signing_key.signFn der
          let cert : IdCert := { id_cert_tbs := id_cert_tbs, signature := signature }
          match cert.validate with
          | .error e => .error (.constraintError e)
          | .ok () => .ok cert

/-- `IdCert::from_actor_csr` from src/certs/idcert.rs: the actor variant of
`from_ca_csr`, delegating to `IdCertTbs::from_actor_csr`. -/
def IdCert.from_actor_csr (id_csr : IdCsr) (signing_key : PrivKey)
    (serial_number : Nat) (issuer : Name) (validity : Validity) :
    Except IdCertError IdCert :=
  let signature_algorithm := signatureAlgId
  match Name.validate issuer with
  | .error e => .error (.constraintError e)
  | .ok () =>
    if !equal_domain_components id_csr.inner_csr.subject issuer then
      .error (.constraintError (.malformed
        (some "Domain components of the issuer and the subject do not match")))
    else
      match IdCertTbs.from_actor_csr id_csr serial_number signature_algorithm
          issuer validity with
      | .error e => .error (.conversionError e)
      | .ok id_cert_tbs =>
        match id_cert_tbs.to_der with
        | .error e => .error (.conversionError e)
        | .ok der =>
          let signature := signing_key.signFn der
          let cert : IdCert := { id_cert_tbs := id_cert_tbs, signature := signature }
          match cert.validate with
          | .error e => .error (.constraintError e)
          | .ok () => .ok cert

/-- `TryFrom<IdCert> for Certificate` from src/certs/idcert.rs: the outer
signature-algorithm field is taken from the TBS certificate. -/
def IdCert.toCertificate (value : IdCert) : Except IdCertError Certificate :=
  match liftConversion value.id_cert_tbs.toTbsCertificate with
  | .error e => .error e
  | .ok tbs =>
    match liftConversion value.signature.to_bitstring with
    | .error e => .error e
    | .ok sigBits =>
      .ok { tbs_certificate := tbs
            signature_algorithm := value.id_cert_tbs.signature_algorithm
            signature := sigBits }

/-- `TryFrom<Certificate> for IdCert` from src/certs/idcert.rs: the signature
is reconstructed by `S::from_bitstring` on the raw bytes. -/
def IdCert.fromCertificate (value : Certificate) : Except IdCertError IdCert :=
  match liftConversion (IdCertTbs.fromTbsCertificate value.tbs_certificate) with
  | .error e => .error e
  | .ok id_cert_tbs =>
    .ok { id_cert_tbs := id_cert_tbs
          signature := Sig.from_bitstring value.signature }

/-- `IdCert::from_der` from src/certs/idcert.rs: decodes the generic
certificate, converts it and then validates the result before returning it. -/
def IdCert.from_der (b : Bytes) : Except IdCertError IdCert :=
  match liftConversion (Certificate.from_der b) with
  | .error e => .error e
  | .ok c =>
    match IdCert.fromCertificate c with
    | .error e => .error e
    | .ok cert =>
      match liftConstraint cert.validate with
      | .error e => .error e
      | .ok () => .ok cert

/-- `IdCert::to_der` from src/certs/idcert.rs. -/
def IdCert.to_der (value : IdCert) : Except IdCertError Bytes :=
  match value.toCertificate with
  | .error e => .error e
  | .ok c => .ok c.to_der

/-- Certificate decoding as the spec's words for claim C6 describe it:
parse-only — reconstruct the structured entity from the wire form with no
constraint validation beyond what parsing requires. This definition follows
the specification's sentence and is compared against the source's
`IdCert.from_der`. -/
def IdCert.from_der_spec_parse_only (b : Bytes) : Except IdCertError IdCert :=
  match liftConversion (Certificate.from_der b) with
  | .error e => .error e
  | .ok c => IdCert.fromCertificate c

/-- Request decoding as the spec's words for claim C6 describe it:
parse-only — reconstruct the public key, Capabilities and Signature with no
constraint validation of the subject Name. This definition follows the
specification's sentence and is compared against the source's
`IdCsr.from_der`. -/
def IdCsr.from_der_spec_parse_only (b : Bytes) : Except ConversionError IdCsr :=
  match CertReq.from_der b with
  | .error e => .error e
  | .ok value =>
    match PubKey.try_from_public_key_info
        { algorithm := value.info.public_key.algorithm
          public_key_bitstring := value.info.public_key.public_key_bitstring } with
    | .error e => .error e
    | .ok pk =>
      match Capabilities.fromAttributes value.info.attributes with
      | .error e => .error e
      | .ok caps =>
        .ok { inner_csr :=
                { version := .v1
                  subject := value.info.subject
                  subject_public_key := pk
                  capabilities := caps }
              signature_algorithm := value.algorithm
              signature := Sig.from_bytes value.signature }

/-- Whether an `Except` result is a success. -/
def isSuccess {ε α : Type} : Except ε α → Bool
  | .ok _ => true
  | .error _ => false

end Certs

/-! ## Claims about the flat model (src/certificates.rs) -/

/-- Concrete TBS certificate used to witness the flat-model claims. -/
def exTbs : Certificates.IdCertTBS :=
  { pub_key := ⟨.ed25519, [1, 2]⟩
    federation_id := ⟨"alice", "example", "com"⟩
    session_id := "session1"
    expiry := 100
    serial := "01" }

/-- A signing key whose declared signature type matches `exTbs`'s key. -/
def exKeyMatching : Certificates.PrivateKey :=
  ⟨.ed25519, fun _ => ⟨.ed25519, "sigbytes"⟩⟩

/-- A signing key whose declared signature type differs from `exTbs`'s key. -/
def exKeyMismatched : Certificates.PrivateKey :=
  ⟨.ecdsaP256, fun _ => ⟨.ecdsaP256, "sigbytes"⟩⟩

/-- Claim C5: signing a To-Be-Signed certificate with a private key whose
declared signature type differs from the TBS's public key's signature type
returns the SignatureTypeMismatch error and produces no certificate, and the
outcome is the same for every signing function of that key — the mismatch is
never silently coerced. -/
theorem claim_C5_signature_type_mismatch (t : Certificates.IdCertTBS)
    (key : Certificates.PrivateKey)
    (h : key.signature_type ≠ t.pub_key.signature_type) :
    t.try_sign key = .error (.signatureTypeMismatch key.signature_type
      t.pub_key.signature_type) ∧
    ∀ f, Certificates.IdCertTBS.try_sign t ⟨key.signature_type, f⟩ =
      .error (.signatureTypeMismatch key.signature_type
        t.pub_key.signature_type) := by
  constructor
  · unfold Certificates.IdCertTBS.try_sign
    rw [if_pos h]
  · intro f
    unfold Certificates.IdCertTBS.try_sign
    rw [if_pos h]

/-- Witness for claim C5 at a concrete mismatched input. -/
theorem claim_C5_signature_type_mismatch_witness :
    exTbs.try_sign exKeyMismatched = .error (.signatureTypeMismatch
      exKeyMismatched.signature_type exTbs.pub_key.signature_type) ∧
    ∀ f, Certificates.IdCertTBS.try_sign exTbs
        ⟨exKeyMismatched.signature_type, f⟩ =
      .error (.signatureTypeMismatch exKeyMismatched.signature_type
        exTbs.pub_key.signature_type) :=
  claim_C5_signature_type_mismatch exTbs exKeyMismatched (by decide)

/-- Claim C9: `to_id_cert_tbs` is total (it performs no validation of any
kind, its type returns a TBS certificate outright), and converting the result
back yields an IdCsr whose `pub_key`, `federation_id` and `session_id` equal
the original's, whose `serial`-independent `expiry` field is `some e`, and
which equals the original exactly when the original's expiry was `some e`. -/
theorem claim_C9_csr_tbs_roundtrip (c : Certificates.IdCsr) (e : Nat)
    (s : String) :
    (Certificates.IdCsr.fromIdCertTBS (c.to_id_cert_tbs e s)).pub_key =
      c.pub_key ∧
    (Certificates.IdCsr.fromIdCertTBS (c.to_id_cert_tbs e s)).federation_id =
      c.federation_id ∧
    (Certificates.IdCsr.fromIdCertTBS (c.to_id_cert_tbs e s)).session_id =
      c.session_id ∧
    (Certificates.IdCsr.fromIdCertTBS (c.to_id_cert_tbs e s)).expiry =
      some e ∧
    (c.to_id_cert_tbs e s).serial = s ∧
    ((Certificates.IdCsr.fromIdCertTBS (c.to_id_cert_tbs e s) = c) ↔
      c.expiry = some e) := by
  obtain ⟨pk, fid, sid, exp⟩ := c
  refine ⟨rfl, rfl, rfl, rfl, rfl, ?_⟩
  simp [Certificates.IdCsr.fromIdCertTBS, Certificates.IdCsr.to_id_cert_tbs,
    eq_comm]

/-- Claim C10: signing with a key of the matching signature type succeeds and
changes nothing but the signature: the certificate's `pub_key`,
`federation_id`, `session_id`, `expiry` and `serial` are exactly the TBS
certificate's fields. -/
theorem claim_C10_try_sign_frame (t : Certificates.IdCertTBS)
    (key : Certificates.PrivateKey)
    (h : key.signature_type = t.pub_key.signature_type) :
    ∃ cert, t.try_sign key = .ok cert ∧ cert.pub_key = t.pub_key ∧
      cert.federation_id = t.federation_id ∧
      cert.session_id = t.session_id ∧
      cert.expiry = t.expiry ∧ cert.serial = t.serial := by
  unfold Certificates.IdCertTBS.try_sign
  rw [if_neg (by simp [h])]
  exact ⟨_, rfl, rfl, rfl, rfl, rfl, rfl⟩

/-- Witness for claim C10 at a concrete matching input. -/
theorem claim_C10_try_sign_frame_witness :
    ∃ cert, exTbs.try_sign exKeyMatching = .ok cert ∧
      cert.pub_key = exTbs.pub_key ∧
      cert.federation_id = exTbs.federation_id ∧
      cert.session_id = exTbs.session_id ∧
      cert.expiry = exTbs.expiry ∧ cert.serial = exTbs.serial :=
  claim_C10_try_sign_frame exTbs exKeyMatching rfl

/-! ## Claims about the generic model (src/certs/)

Concrete example data shared by the witnesses. -/

/-- A well-formed subject Name: the actor at domain example.com. -/
def exSubject : Certs.Name :=
  [.commonName "alice", .domainComponent "example", .domainComponent "com"]

/-- A well-formed issuer Name with the same domain components as
`exSubject`. -/
def exIssuer : Certs.Name :=
  [.commonName "root ca", .domainComponent "example", .domainComponent "com"]

/-- A well-formed issuer Name at the unrelated domain other.org. -/
def exIssuerOther : Certs.Name :=
  [.commonName "root ca", .domainComponent "other", .domainComponent "org"]

/-- A concrete typed public key of the generic model. -/
def exPubKey : Certs.PubKey := ⟨[5, 6]⟩

/-- A concrete signing key of the generic model. -/
def exPrivKey : Certs.PrivKey := ⟨exPubKey, fun _ => ⟨[42]⟩⟩

/-- A second signing key with a different signing function. -/
def exPrivKey2 : Certs.PrivKey := ⟨exPubKey, fun _ => ⟨[43]⟩⟩

/-- Actor capabilities: CA flag false. -/
def exCapsActor : Certs.Capabilities := ⟨⟨false⟩, []⟩

/-- Home-server capabilities: CA flag true. -/
def exCapsCa : Certs.Capabilities := ⟨⟨true⟩, []⟩

/-- A concrete validity window. -/
def exValidity : Certs.Validity := ⟨0, 1000⟩

/-- A concrete well-formed actor request. -/
def exCsrActor : Certs.IdCsr :=
  { inner_csr :=
      { version := .v1
        subject := exSubject
        subject_public_key := exPubKey
        capabilities := exCapsActor }
    signature_algorithm := Certs.signatureAlgId
    signature := ⟨[7]⟩ }

/-- A concrete well-formed home-server request. -/
def exCsrCa : Certs.IdCsr :=
  { inner_csr :=
      { version := .v1
        subject := exSubject
        subject_public_key := exPubKey
        capabilities := exCapsCa }
    signature_algorithm := Certs.signatureAlgId
    signature := ⟨[7]⟩ }

/-- A Bool bridge: differing domain-component sequences make
`equal_domain_components` false. -/
theorem equal_domain_components_eq_false {a b : Certs.Name}
    (h : Certs.domainComponents a ≠ Certs.domainComponents b) :
    Certs.equal_domain_components a b = false := by
  simp [Certs.equal_domain_components, h]

/-- Claim C2: whenever the request subject's domain components differ from
the issuer's, both `from_ca_csr` and `from_actor_csr` return a
ConstraintError, and the result is the same for every signing key — in
particular the key's sign operation is never invoked on that call. -/
theorem claim_C2_domain_mismatch (id_csr : Certs.IdCsr) (issuer : Certs.Name)
    (serial : Nat) (validity : Certs.Validity)
    (h : Certs.domainComponents id_csr.inner_csr.subject ≠
      Certs.domainComponents issuer) :
    (∀ key, ∃ ce, Certs.IdCert.from_ca_csr id_csr key serial issuer validity =
      .error (.constraintError ce)) ∧
    (∀ key, ∃ ce, Certs.IdCert.from_actor_csr id_csr key serial issuer validity =
      .error (.constraintError ce)) ∧
    (∀ k₁ k₂, Certs.IdCert.from_ca_csr id_csr k₁ serial issuer validity =
      Certs.IdCert.from_ca_csr id_csr k₂ serial issuer validity) ∧
    (∀ k₁ k₂, Certs.IdCert.from_actor_csr id_csr k₁ serial issuer validity =
      Certs.IdCert.from_actor_csr id_csr k₂ serial issuer validity) := by
  have hf := equal_domain_components_eq_false h
  refine ⟨fun key => ?_, fun key => ?_, fun k₁ k₂ => ?_, fun k₁ k₂ => ?_⟩
  · cases hv : Certs.Name.validate issuer with
    | error e => exact ⟨e, by simp [Certs.IdCert.from_ca_csr, hv]⟩
    | ok u =>
      cases u
      exact ⟨.malformed
        (some "Domain components of the issuer and the subject do not match"),
        by simp [Certs.IdCert.from_ca_csr, hv, hf]⟩
  · cases hv : Certs.Name.validate issuer with
    | error e => exact ⟨e, by simp [Certs.IdCert.from_actor_csr, hv]⟩
    | ok u =>
      cases u
      exact ⟨.malformed
        (some "Domain components of the issuer and the subject do not match"),
        by simp [Certs.IdCert.from_actor_csr, hv, hf]⟩
  · cases hv : Certs.Name.validate issuer with
    | error e => simp [Certs.IdCert.from_ca_csr, hv]
    | ok u => cases u; simp [Certs.IdCert.from_ca_csr, hv, hf]
  · cases hv : Certs.Name.validate issuer with
    | error e => simp [Certs.IdCert.from_actor_csr, hv]
    | ok u => cases u; simp [Certs.IdCert.from_actor_csr, hv, hf]

/-- Witness for claim C2: the authority at other.org cannot issue for the
example.com request. -/
theorem claim_C2_domain_mismatch_witness :
    (∀ key, ∃ ce,
      Certs.IdCert.from_ca_csr exCsrCa key 1 exIssuerOther exValidity =
        .error (.constraintError ce)) ∧
    (∀ key, ∃ ce,
      Certs.IdCert.from_actor_csr exCsrCa key 1 exIssuerOther exValidity =
        .error (.constraintError ce)) ∧
    (∀ k₁ k₂, Certs.IdCert.from_ca_csr exCsrCa k₁ 1 exIssuerOther exValidity =
      Certs.IdCert.from_ca_csr exCsrCa k₂ 1 exIssuerOther exValidity) ∧
    (∀ k₁ k₂, Certs.IdCert.from_actor_csr exCsrCa k₁ 1 exIssuerOther exValidity =
      Certs.IdCert.from_actor_csr exCsrCa k₂ 1 exIssuerOther exValidity) :=
  claim_C2_domain_mismatch exCsrCa exIssuerOther 1 exValidity (by decide)

/-- Claim C4: a request that passes generic validation and has CA = true
fails `validate_actor` with a ConstraintError and passes
`validate_home_server`; with CA = false the converse holds. -/
theorem claim_C4_role_enforcement (csr : Certs.IdCsr)
    (h : csr.validate = .ok ()) :
    (csr.inner_csr.capabilities.basic_constraints.ca = true →
      csr.validate_actor = .error (.constraintError
        (.malformed (some "Actor CSR must not be a CA"))) ∧
      csr.validate_home_server = .ok ()) ∧
    (csr.inner_csr.capabilities.basic_constraints.ca = false →
      csr.validate_actor = .ok () ∧
      csr.validate_home_server = .error (.constraintError (.malformed
        (some "Home server CSR must have the CA capability set to true")))) := by
  constructor
  · intro hca
    constructor
    · simp [Certs.IdCsr.validate_actor, h, hca]
    · simp [Certs.IdCsr.validate_home_server, h, hca]
  · intro hca
    constructor
    · simp [Certs.IdCsr.validate_actor, h, hca]
    · simp [Certs.IdCsr.validate_home_server, h, hca]

/-- Witness for claim C4 at the two concrete requests. -/
theorem claim_C4_role_enforcement_witness :
    (exCsrCa.validate_actor = .error (.constraintError
        (.malformed (some "Actor CSR must not be a CA"))) ∧
      exCsrCa.validate_home_server = .ok ()) ∧
    (exCsrActor.validate_actor = .ok () ∧
      exCsrActor.validate_home_server = .error (.constraintError (.malformed
        (some "Home server CSR must have the CA capability set to true")))) :=
  ⟨(claim_C4_role_enforcement exCsrCa rfl).1 rfl,
    (claim_C4_role_enforcement exCsrActor rfl).2 rfl⟩

/-- A public-key pair whose algorithm identifier is not the scheme's. -/
def exBadPubKeyInfo : Certs.PublicKeyInfo := ⟨⟨"1.2.840.10045.4.3.2"⟩, [9]⟩

/-- A wire request-information structure carrying `exBadPubKeyInfo`. -/
def exBadCertReqInfo : Certs.CertReqInfo :=
  { version := .v1
    subject := exSubject
    public_key := exBadPubKeyInfo
    attributes := Certs.Capabilities.toAttributes exCapsActor }

/-- Claim C8: reconstructing a typed public key from a generic pair with a
mismatched algorithm identifier (the modelled notion of malformed or
mismatched input) is rejected, and the rejection propagates through request
decoding: converting a wire request whose public-key pair is mismatched
returns an error, never a request. -/
theorem claim_C8_pubkey_reconstruction_rejects (info : Certs.PublicKeyInfo)
    (h : info.algorithm ≠ Certs.signatureAlgId)
    (cri : Certs.CertReqInfo)
    (h2 : cri.public_key.algorithm ≠ Certs.signatureAlgId) :
    Certs.PubKey.try_from_public_key_info info =
      .error (.invalidPublicKey "algorithm identifier mismatch") ∧
    ∃ e, Certs.IdCsrInner.fromCertReqInfo cri = .error e := by
  constructor
  · simp [Certs.PubKey.try_from_public_key_info, h]
  · unfold Certs.IdCsrInner.fromCertReqInfo
    cases hv : Certs.Name.validate cri.subject with
    | error e => exact ⟨.constraintError e, by simp [hv]⟩
    | ok u =>
      cases u
      exact ⟨.invalidPublicKey "algorithm identifier mismatch",
        by simp [hv, Certs.PubKey.try_from_public_key_info, h2]⟩

/-- Witness for claim C8 at a concrete mismatched pair. -/
theorem claim_C8_pubkey_reconstruction_rejects_witness :
    Certs.PubKey.try_from_public_key_info exBadPubKeyInfo =
      .error (.invalidPublicKey "algorithm identifier mismatch") ∧
    ∃ e, Certs.IdCsrInner.fromCertReqInfo exBadCertReqInfo = .error e :=
  claim_C8_pubkey_reconstruction_rejects exBadPubKeyInfo (by decide)
    exBadCertReqInfo (by decide)

/-- Inversion for `from_ca_csr`: a successfully returned certificate passed
the final re-validation step. -/
theorem validate_ok_of_from_ca_csr {id_csr : Certs.IdCsr}
    {key : Certs.PrivKey} {serial : Nat} {issuer : Certs.Name}
    {validity : Certs.Validity} {cert : Certs.IdCert}
    (h : Certs.IdCert.from_ca_csr id_csr key serial issuer validity =
      .ok cert) :
    cert.validate = .ok () := by
  simp only [Certs.IdCert.from_ca_csr] at h
  split at h
  · cases h
  · split at h
    · cases h
    · split at h
      · cases h
      · split at h
        · cases h
        · split at h
          · cases h
          · rename_i hvalid
            cases h
            exact hvalid

/-- Inversion for `from_actor_csr`: a successfully returned certificate
passed the final re-validation step. -/
theorem validate_ok_of_from_actor_csr {id_csr : Certs.IdCsr}
    {key : Certs.PrivKey} {serial : Nat} {issuer : Certs.Name}
    {validity : Certs.Validity} {cert : Certs.IdCert}
    (h : Certs.IdCert.from_actor_csr id_csr key serial issuer validity =
      .ok cert) :
    cert.validate = .ok () := by
  simp only [Certs.IdCert.from_actor_csr] at h
  split at h
  · cases h
  · split at h
    · cases h
    · split at h
      · cases h
      · split at h
        · cases h
        · split at h
          · cases h
          · rename_i hvalid
            cases h
            exact hvalid

/-- Claim C3: every certificate returned by `from_ca_csr` or
`from_actor_csr` satisfies the `Constrained` validation — whenever either
operation returns a certificate, that certificate passes `validate`. -/
theorem claim_C3_output_validated (csr₁ csr₂ : Certs.IdCsr)
    (k₁ k₂ : Certs.PrivKey) (s₁ s₂ : Nat) (i₁ i₂ : Certs.Name)
    (v₁ v₂ : Certs.Validity) (c₁ c₂ : Certs.IdCert)
    (h₁ : Certs.IdCert.from_ca_csr csr₁ k₁ s₁ i₁ v₁ = .ok c₁)
    (h₂ : Certs.IdCert.from_actor_csr csr₂ k₂ s₂ i₂ v₂ = .ok c₂) :
    c₁.validate = .ok () ∧ c₂.validate = .ok () :=
  ⟨validate_ok_of_from_ca_csr h₁, validate_ok_of_from_actor_csr h₂⟩

/-- The CA certificate produced by `from_ca_csr` on the concrete inputs. -/
def exCertCa : Certs.IdCert :=
  { id_cert_tbs :=
      { serial_number := 1
        signature_algorithm := Certs.signatureAlgId
        issuer := exIssuer
        validity := exValidity
        subject := exSubject
        subject_public_key := exPubKey
        capabilities := exCapsCa }
    signature := ⟨[42]⟩ }

/-- The actor certificate produced by `from_actor_csr` on the concrete
inputs. -/
def exCertActor : Certs.IdCert :=
  { id_cert_tbs :=
      { serial_number := 1
        signature_algorithm := Certs.signatureAlgId
        issuer := exIssuer
        validity := exValidity
        subject := exSubject
        subject_public_key := exPubKey
        capabilities := exCapsActor }
    signature := ⟨[42]⟩ }

/-- Witness for claim C3: concrete successful issuance on both entry
points. -/
theorem claim_C3_output_validated_witness :
    exCertCa.validate = .ok () ∧ exCertActor.validate = .ok () :=
  claim_C3_output_validated exCsrCa exCsrActor exPrivKey exPrivKey 1 1
    exIssuer exIssuer exValidity exValidity exCertCa exCertActor rfl rfl

/-- Reconstructing a typed public key from its own generic pair is the
identity. -/
theorem pubkey_info_roundtrip (p : Certs.PubKey) :
    Certs.PubKey.try_from_public_key_info p.public_key_info = .ok p := by
  simp [Certs.PubKey.try_from_public_key_info, Certs.PubKey.public_key_info]

/-- Decoding the encoded capability-flag attributes restores the flags. -/
theorem parseFlagAttributes_map (fs : List String) :
    Certs.parseFlagAttributes (fs.map fun f => ⟨"capabilityFlag", f⟩) =
      .ok fs := by
  induction fs with
  | nil => rfl
  | cons f fs ih =>
    simp only [List.map_cons, Certs.parseFlagAttributes]
    rw [if_pos trivial, ih]

/-- Decoding encoded Capabilities restores them: the attribute encoding is
lossless. -/
theorem capabilities_roundtrip (c : Certs.Capabilities) :
    Certs.Capabilities.fromAttributes c.toAttributes = .ok c := by
  obtain ⟨⟨ca⟩, fs⟩ := c
  cases ca <;>
    simp [Certs.Capabilities.toAttributes, Certs.Capabilities.fromAttributes,
      parseFlagAttributes_map]

/-- A request whose subject passes Name validation round-trips through the
wire conversion layer: DER and PEM encodings decode back to the request. -/
theorem csr_roundtrip_of_subject_valid (R : Certs.IdCsr)
    (h : Certs.Name.validate R.inner_csr.subject = .ok ())
    (le : Certs.LineEnding) :
    (Certs.IdCsr.to_der R).bind Certs.IdCsr.from_der = .ok R ∧
    (Certs.IdCsr.to_pem R le).bind Certs.IdCsr.from_pem = .ok R := by
  obtain ⟨⟨ver, subj, ⟨bits⟩, caps⟩, alg, ⟨sigb⟩⟩ := R
  cases ver
  simp only [Certs.IdCsrInner.subject] at h
  constructor <;>
    simp [Certs.IdCsr.to_der, Certs.IdCsr.to_pem, Certs.IdCsr.toCertReq,
      Certs.IdCsrInner.toCertReqInfo, Certs.Sig.to_bitstring,
      Certs.CertReq.to_der, Certs.CertReq.to_pem, Except.bind,
      Certs.IdCsr.from_der, Certs.IdCsr.from_pem, Certs.CertReq.from_der,
      Certs.CertReq.from_pem, Certs.IdCsr.fromCertReq,
      Certs.IdCsrInner.fromCertReqInfo, h, Certs.PubKey.public_key_info,
      Certs.PubKey.try_from_public_key_info, capabilities_roundtrip,
      Certs.Sig.from_bytes]

/-- A certificate that passes `Constrained` validation round-trips through
the wire conversion layer. -/
theorem cert_roundtrip_of_validate (C : Certs.IdCert)
    (h : C.validate = .ok ()) :
    (Certs.IdCert.to_der C).bind Certs.IdCert.from_der = .ok C := by
  obtain ⟨⟨serial, alg, issuer, validity, subj, ⟨bits⟩, caps⟩, ⟨sigb⟩⟩ := C
  simp [Certs.IdCert.to_der, Certs.IdCert.toCertificate,
    Certs.IdCertTbs.toTbsCertificate, Certs.Sig.to_bitstring,
    Certs.liftConversion, Certs.Certificate.to_der, Except.bind,
    Certs.IdCert.from_der, Certs.Certificate.from_der,
    Certs.IdCert.fromCertificate, Certs.IdCertTbs.fromTbsCertificate,
    Certs.PubKey.public_key_info, Certs.PubKey.try_from_public_key_info,
    capabilities_roundtrip, Certs.Sig.from_bitstring, Certs.liftConstraint, h]

/-- Inversion for `IdCsr::new`: a constructed request's subject passed Name
validation. -/
theorem subject_valid_of_new {subject : Certs.Name} {key : Certs.PrivKey}
    {caps : Certs.Capabilities} {R : Certs.IdCsr}
    (h : Certs.IdCsr.new subject key caps = .ok R) :
    Certs.Name.validate R.inner_csr.subject = .ok () := by
  simp only [Certs.IdCsr.new] at h
  cases hv : Certs.Name.validate subject with
  | error e => rw [hv] at h; cases h
  | ok u =>
    cases u
    rw [hv] at h
    simp only [Certs.IdCsrInner.new, Certs.Capabilities.validate] at h
    rw [hv] at h
    simp only [Certs.IdCsrInner.to_der, Certs.IdCsrInner.toCertReqInfo,
      Certs.CertReqInfo.to_der] at h
    cases h
    exact hv

/-- Claim C1: encoding then decoding is the identity on valid constructed
entities: every Request produced by `IdCsr::new` round-trips through its DER
encoding and through its PEM encoding, and every Certificate produced by
`from_ca_csr` or `from_actor_csr` round-trips through its DER encoding. -/
theorem claim_C1_encode_decode_roundtrip (subject : Certs.Name)
    (key : Certs.PrivKey) (caps : Certs.Capabilities) (R : Certs.IdCsr)
    (hR : Certs.IdCsr.new subject key caps = .ok R) (le : Certs.LineEnding)
    (csr₁ csr₂ : Certs.IdCsr) (k₁ k₂ : Certs.PrivKey) (s₁ s₂ : Nat)
    (i₁ i₂ : Certs.Name) (v₁ v₂ : Certs.Validity) (C₁ C₂ : Certs.IdCert)
    (hC₁ : Certs.IdCert.from_ca_csr csr₁ k₁ s₁ i₁ v₁ = .ok C₁)
    (hC₂ : Certs.IdCert.from_actor_csr csr₂ k₂ s₂ i₂ v₂ = .ok C₂) :
    (Certs.IdCsr.to_der R).bind Certs.IdCsr.from_der = .ok R ∧
    (Certs.IdCsr.to_pem R le).bind Certs.IdCsr.from_pem = .ok R ∧
    (Certs.IdCert.to_der C₁).bind Certs.IdCert.from_der = .ok C₁ ∧
    (Certs.IdCert.to_der C₂).bind Certs.IdCert.from_der = .ok C₂ := by
  obtain ⟨hder, hpem⟩ :=
    csr_roundtrip_of_subject_valid R (subject_valid_of_new hR) le
  exact ⟨hder, hpem,
    cert_roundtrip_of_validate C₁ (validate_ok_of_from_ca_csr hC₁),
    cert_roundtrip_of_validate C₂ (validate_ok_of_from_actor_csr hC₂)⟩

/-- The request produced by `IdCsr::new` on the concrete actor inputs. -/
def exCsrNew : Certs.IdCsr :=
  { inner_csr :=
      { version := .v1
        subject := exSubject
        subject_public_key := exPubKey
        capabilities := exCapsActor }
    signature_algorithm := Certs.signatureAlgId
    signature := ⟨[42]⟩ }

/-- Witness for claim C1: the concrete constructed request and certificates
round-trip. -/
theorem claim_C1_encode_decode_roundtrip_witness :
    (Certs.IdCsr.to_der exCsrNew).bind Certs.IdCsr.from_der = .ok exCsrNew ∧
    (Certs.IdCsr.to_pem exCsrNew .lf).bind Certs.IdCsr.from_pem =
      .ok exCsrNew ∧
    (Certs.IdCert.to_der exCertCa).bind Certs.IdCert.from_der =
      .ok exCertCa ∧
    (Certs.IdCert.to_der exCertActor).bind Certs.IdCert.from_der =
      .ok exCertActor :=
  claim_C1_encode_decode_roundtrip exSubject exPrivKey exCapsActor exCsrNew
    rfl .lf exCsrCa exCsrActor exPrivKey exPrivKey 1 1 exIssuer exIssuer
    exValidity exValidity exCertCa exCertActor rfl rfl

/-- A Name failing validation: an empty common name and no domain
components. -/
def exBadName : Certs.Name := [.commonName ""]

/-- A wire request that parses but whose subject fails Name validation. -/
def exBadSubjectCertReq : Certs.CertReq :=
  { info :=
      { version := .v1
        subject := exBadName
        public_key := ⟨Certs.signatureAlgId, [5, 6]⟩
        attributes := Certs.Capabilities.toAttributes exCapsActor }
    algorithm := Certs.signatureAlgId
    signature := [7] }

/-- A wire certificate that parses but fails `Constrained` validation. -/
def exBadSubjectCertificate : Certs.Certificate :=
  { tbs_certificate :=
      { serial_number := 1
        signature := Certs.signatureAlgId
        issuer := exBadName
        validity := exValidity
        subject := exBadName
        subject_public_key_info := ⟨Certs.signatureAlgId, [5, 6]⟩
        capability_attributes := Certs.Capabilities.toAttributes exCapsCa }
    signature_algorithm := Certs.signatureAlgId
    signature := [7] }

/-- Claim C6 counterexample: a wire request and a wire certificate that both
parse (the parse-only decoders following the spec's words succeed on them)
but on which the source's `IdCsr::from_der` and `IdCert::from_der` return
errors — decoding does perform polyproto constraint validation beyond
parsing, so it is not parse-only. -/
theorem claim_C6_counterexample :
    (∃ R, Certs.IdCsr.from_der_spec_parse_only
      (.derCertReq exBadSubjectCertReq) = .ok R) ∧
    (∃ e, Certs.IdCsr.from_der (.derCertReq exBadSubjectCertReq) =
      .error e) ∧
    (∃ C, Certs.IdCert.from_der_spec_parse_only
      (.derCertificate exBadSubjectCertificate) = .ok C) ∧
    (∃ e, Certs.IdCert.from_der (.derCertificate exBadSubjectCertificate) =
      .error e) :=
  ⟨⟨_, rfl⟩, ⟨_, rfl⟩, ⟨_, rfl⟩, ⟨_, rfl⟩⟩

/-- Inversion for `TryFrom<CertReqInfo>`: a successfully converted inner
request has a subject that passed Name validation. -/
theorem subject_valid_of_fromCertReqInfo {cri : Certs.CertReqInfo}
    {inner : Certs.IdCsrInner}
    (h : Certs.IdCsrInner.fromCertReqInfo cri = .ok inner) :
    Certs.Name.validate inner.subject = .ok () := by
  simp only [Certs.IdCsrInner.fromCertReqInfo] at h
  split at h
  · cases h
  · rename_i hv
    split at h
    · cases h
    · split at h
      · cases h
      · cases h
        exact hv

/-- Inversion for `IdCsr::from_der`: a successfully decoded request has a
subject that passed Name validation. -/
theorem subject_valid_of_idcsr_from_der {b : Certs.Bytes} {R : Certs.IdCsr}
    (h : Certs.IdCsr.from_der b = .ok R) :
    Certs.Name.validate R.inner_csr.subject = .ok () := by
  simp only [Certs.IdCsr.from_der] at h
  split at h
  · cases h
  · simp only [Certs.IdCsr.fromCertReq] at h
    split at h
    · cases h
    · rename_i hinner
      cases h
      exact subject_valid_of_fromCertReqInfo hinner

/-- Unwrapping of a successful `liftConstraint` result. -/
theorem liftConstraint_ok {α : Type} {x : Except Certs.ConstraintError α}
    {a : α} (h : Certs.liftConstraint x = .ok a) : x = .ok a := by
  cases x with
  | error e => cases h
  | ok b => simpa [Certs.liftConstraint] using h

/-- Inversion for `IdCert::from_der`: a successfully decoded certificate
passed `Constrained` validation inside the decoder. -/
theorem validate_ok_of_idcert_from_der {b : Certs.Bytes} {C : Certs.IdCert}
    (h : Certs.IdCert.from_der b = .ok C) : C.validate = .ok () := by
  simp only [Certs.IdCert.from_der] at h
  split at h
  · cases h
  · split at h
    · cases h
    · split at h
      · cases h
      · rename_i hv
        cases h
        exact liftConstraint_ok hv

/-- Claim C6 amended: decoding performs no signature verification (the
decoders have no access to any verifier), but it is not validation-free:
`IdCsr::from_der` validates the decoded subject Name during conversion, and
`IdCert::from_der` validates the complete decoded certificate before
returning it, so every decoded entity already passes the corresponding
validation. -/
theorem claim_C6_amended (b b' : Certs.Bytes) (R : Certs.IdCsr)
    (C : Certs.IdCert) (h₁ : Certs.IdCsr.from_der b = .ok R)
    (h₂ : Certs.IdCert.from_der b' = .ok C) :
    Certs.Name.validate R.inner_csr.subject = .ok () ∧
    C.validate = .ok () :=
  ⟨subject_valid_of_idcsr_from_der h₁, validate_ok_of_idcert_from_der h₂⟩

/-- A well-formed wire request whose signature bit-string is the single byte
42 — not a valid 64-byte layout for the modelled algorithm. -/
def exGoodCertReq : Certs.CertReq :=
  { info :=
      { version := .v1
        subject := exSubject
        public_key := ⟨Certs.signatureAlgId, [5, 6]⟩
        attributes := Certs.Capabilities.toAttributes exCapsActor }
    algorithm := Certs.signatureAlgId
    signature := [42] }

/-- A well-formed wire certificate whose signature bit-string is the single
byte 42 — not a valid 64-byte layout for the modelled algorithm. -/
def exGoodCertificate : Certs.Certificate :=
  { tbs_certificate :=
      { serial_number := 1
        signature := Certs.signatureAlgId
        issuer := exIssuer
        validity := exValidity
        subject := exSubject
        subject_public_key_info := ⟨Certs.signatureAlgId, [5, 6]⟩
        capability_attributes := Certs.Capabilities.toAttributes exCapsCa }
    signature_algorithm := Certs.signatureAlgId
    signature := [42] }

/-- Witness for the amended claim C6 at concrete decodable inputs. -/
theorem claim_C6_amended_witness :
    Certs.Name.validate exCsrNew.inner_csr.subject = .ok () ∧
    exCertCa.validate = .ok () :=
  claim_C6_amended (.derCertReq exGoodCertReq)
    (.derCertificate exGoodCertificate) exCsrNew exCertCa rfl rfl

/-- Claim C7 counterexample: a request and a certificate whose signature
bytes are malformed for the algorithm (one byte instead of the algorithm's
64-byte layout) are decoded successfully — the malformed signature bytes do
not cause a decode error. -/
theorem claim_C7_counterexample :
    Certs.sigBytesWellFormed exGoodCertReq.signature = false ∧
    Certs.IdCsr.from_der (.derCertReq exGoodCertReq) = .ok exCsrNew ∧
    Certs.sigBytesWellFormed exGoodCertificate.signature = false ∧
    Certs.IdCert.from_der (.derCertificate exGoodCertificate) =
      .ok exCertCa :=
  ⟨rfl, rfl, rfl, rfl⟩

/-- Claim C7 amended: signature reconstruction during decoding is
infallible: `S::from_bytes` and `S::from_bitstring` are total as the source
applies them, so whenever the rest of the wire structure converts, the
conversion succeeds for every choice of signature bytes, storing the raw
bytes as the signature. -/
theorem claim_C7_amended (c : Certs.CertReq) (t : Certs.Certificate)
    (inner : Certs.IdCsrInner) (tbs : Certs.IdCertTbs)
    (h₁ : Certs.IdCsrInner.fromCertReqInfo c.info = .ok inner)
    (h₂ : Certs.IdCertTbs.fromTbsCertificate t.tbs_certificate = .ok tbs) :
    (∀ s, Certs.IdCsr.fromCertReq { c with signature := s } =
      .ok ⟨inner, c.algorithm, Certs.Sig.from_bytes s⟩) ∧
    (∀ s, Certs.IdCert.fromCertificate { t with signature := s } =
      .ok ⟨tbs, Certs.Sig.from_bitstring s⟩) := by
  constructor
  · intro s
    simp [Certs.IdCsr.fromCertReq, h₁]
  · intro s
    simp [Certs.IdCert.fromCertificate, Certs.liftConversion, h₂]

/-- Witness for the amended claim C7 at concrete inputs with three-byte
signature bit-strings. -/
theorem claim_C7_amended_witness :
    Certs.IdCsr.fromCertReq { exGoodCertReq with signature := [1, 2, 3] } =
      .ok ⟨exCsrNew.inner_csr, Certs.signatureAlgId,
        Certs.Sig.from_bytes [1, 2, 3]⟩ ∧
    Certs.IdCert.fromCertificate
        { exGoodCertificate with signature := [1, 2, 3] } =
      .ok ⟨exCertCa.id_cert_tbs, Certs.Sig.from_bitstring [1, 2, 3]⟩ :=
  ⟨(claim_C7_amended exGoodCertReq exGoodCertificate exCsrNew.inner_csr
      exCertCa.id_cert_tbs rfl rfl).1 [1, 2, 3],
    (claim_C7_amended exGoodCertReq exGoodCertificate exCsrNew.inner_csr
      exCertCa.id_cert_tbs rfl rfl).2 [1, 2, 3]⟩

end Polyproto
